import Mathlib

/-!
Shallow embedding of the stock-scanner service's orchestration layer
(`src/main.py`): the ticker normalizer, the derived-metric classifiers,
the streaming generator behind `/stock_analyzer`, and the four
non-streaming endpoints.  Collaborators (data provider, indicator
computation, scorer, narrative generator) are modelled by their observable
outcomes; numeric values are rationals; Python strings are Lean strings
with the character-level operations spelled out over `String.data`.
-/

/-- Python's `s.lower()`: lowercase every character. -/
def lowercase (s : String) : String := String.mk (s.data.map Char.toLower)

/-- Python's `s.startswith(pre)`, character by character. -/
def pyStartswith (s pre : String) : Bool := pre.data.isPrefixOf s.data

/-- Python's `s[2:]`: drop the first two characters. -/
def sliceFrom2 (s : String) : String := String.mk (s.data.drop 2)

/-- The ticker normalizer shared by every endpoint (`main.py` lines 72-76,
183-187, 259-263, 361-365, 424-428): for market `"A"`, a code starting
(case-insensitively) with `"sh"` or `"sz"` loses its first two characters;
every other code passes through unchanged. -/
def cleanStockCode (stock_code market_type : String) : String :=
  if market_type = "A" ∧
      (pyStartswith (lowercase stock_code) "sh" ∨ pyStartswith (lowercase stock_code) "sz")
  then sliceFrom2 stock_code
  else stock_code

/-- One row of the (indicator-extended) price frame.  OHLCV columns and the
date index are always present in a retrieved series; derived columns may be
absent (Python reads them with `.get(col, 0)` or `.get(col)`). -/
structure Row where
  name : String
  Open : ℚ
  High : ℚ
  Low : ℚ
  Close : ℚ
  Volume : ℚ
  MA5 : Option ℚ := none
  MA20 : Option ℚ := none
  MA60 : Option ℚ := none
  MACD : Option ℚ := none
  Signal : Option ℚ := none
  Volume_MA : Option ℚ := none
  RSI : Option ℚ := none
  Change_pct : Option ℚ := none
  BB_Upper : Option ℚ := none
  BB_Middle : Option ℚ := none
  BB_Lower : Option ℚ := none
deriving DecidableEq

/-- What `data_provider.get_stock_data` hands back when it does not raise:
either an object carrying an `error` attribute, or a data frame (list of
rows, oldest first); `df.empty` is the empty list. -/
inductive FetchResult
  | errorAttr (msg : String)
  | frame (df : List Row)

/-- An exception escaping a collaborator call: Python's `KeyError` (caught
separately by the handlers) or any other exception, each carrying its
string rendering. -/
inductive Exn
  | keyError (msg : String)
  | other (msg : String)

/-- One request's collaborator snapshot: the outcome of each stage call and
the narrative generator's chunk stream (`aiChunks`, followed by `aiExn` if
the stream raises instead of ending normally). -/
structure Behavior where
  fetch : Except Exn FetchResult
  indicators : Except Exn (List Row)
  score : Except Exn ℚ
  recommendation : Except Exn String
  aiChunks : List String
  aiExn : Option Exn

/-- MA-trend classifier (`main.py` lines 107-112 and 283-292): the chained
comparison `ma_short > ma_medium > ma_long`. -/
def maTrendOf (ma_short ma_medium ma_long : ℚ) : String :=
  if ma_short > ma_medium ∧ ma_medium > ma_long then "UP"
  else if ma_short < ma_medium ∧ ma_medium < ma_long then "DOWN"
  else "FLAT"

/-- MACD-signal classifier (`main.py` lines 114-118 and 295-303). -/
def macdSignalOf (macd signal : ℚ) : String :=
  if macd > signal then "BUY"
  else if macd < signal then "SELL"
  else "HOLD"

/-- Volume-regime classifier (`main.py` lines 120-124 and 306-314). -/
def volumeStatusOf (volume volume_ma : ℚ) : String :=
  if volume > volume_ma * 1.5 then "HIGH"
  else if volume < volume_ma * 0.5 then "LOW"
  else "NORMAL"

/-- The flat JSON object yielded as the Basic event
(`main.py` lines 126-140). -/
structure BasicResult where
  stock_code : String
  market_type : String
  analysis_date : String
  score : ℚ
  price : ℚ
  price_change_value : ℚ
  change_percent : Option ℚ
  ma_trend : String
  rsi : ℚ
  macd_signal : String
  volume_status : String
  recommendation : String
  ai_analysis : String
deriving DecidableEq

/-- One line of the streamed NDJSON response: the Basic object, a raw
narrative chunk passed through from the generator, or an error object
(whose members are all strings, kept in `json.dumps` insertion order). -/
inductive Event
  | basic (b : BasicResult)
  | chunk (s : String)
  | err (fields : List (String × String))
deriving DecidableEq

/-- `f"获取到的股票 {code} 数据为空"` (`main.py` lines 87, 198, ...). -/
def emptyDataMsg (code : String) : String := "获取到的股票 " ++ code ++ " 数据为空"

/-- `f"股票代码 {code} 在数据源中不存在或格式不正确: {str(ke)}"`
(`main.py` line 150). -/
def keyErrorStreamMsg (code ke : String) : String :=
  "股票代码 " ++ code ++ " 在数据源中不存在或格式不正确: " ++ ke

/-- The message of the `IndexError` pandas raises for `iloc[-1]` on an empty
frame; it reaches the catch-all handler. -/
def indexErrorMsg : String := "single positional indexer is out-of-bounds"

/-- What the stream generator's two `except` blocks yield
(`main.py` lines 149-156): a `KeyError` produces the three-member error
object with the original `stock_code`; any other exception produces an
object with the `error` member alone. -/
def exnEvent (stock_code : String) : Exn → Event
  | .keyError m =>
      .err [("error", keyErrorStreamMsg stock_code m), ("stock_code", stock_code),
            ("status", "error")]
  | .other m => .err [("error", m)]

/-- The tail of the stream after the Basic line (`main.py` lines 145-156):
one line per narrative chunk, and, if the narrative stream raises instead
of ending, the line its handler yields. -/
def aiTail (stock_code : String) (aiChunks : List String) (aiExn : Option Exn) : List Event :=
  aiChunks.map Event.chunk ++
    match aiExn with
    | some e => [exnEvent stock_code e]
    | none => []

/-- The stream generator behind `/stock_analyzer` (`main.py` lines 68-156),
as the finite list of lines it yields, given the request, the current date
string (`datetime.now().strftime('%Y-%m-%d')`), and the collaborator
snapshot. -/
def streamGenerator (stock_code market_type now : String) (b : Behavior) : List Event :=
  let cleaned := cleanStockCode stock_code market_type
  match b.fetch with
  | .error e => [exnEvent stock_code e]
  | .ok (.errorAttr msg) =>
      [.err [("error", msg), ("stock_code", cleaned), ("status", "error")]]
  | .ok (.frame df) =>
    if df.isEmpty then
      [.err [("error", emptyDataMsg cleaned), ("stock_code", cleaned), ("status", "error")]]
    else
      match b.indicators with
      | .error e => [exnEvent stock_code e]
      | .ok dfI =>
        match b.score with
        | .error e => [exnEvent stock_code e]
        | .ok score =>
          match b.recommendation with
          | .error e => [exnEvent stock_code e]
          | .ok recommendation =>
            match dfI.getLast? with
            | none => [exnEvent stock_code (.other indexErrorMsg)]
            | some latest =>
              let previous :=
                if 1 < dfI.length then (dfI[dfI.length - 2]?).getD latest else latest
              let price_change_value := latest.Close - previous.Close
              let change_percent := latest.Change_pct
              let change_percent :=
                if change_percent = none ∧ previous.Close ≠ 0 then
                  some (price_change_value / previous.Close * 100)
                else change_percent
              let basic : BasicResult :=
                { stock_code := stock_code
                  market_type := market_type
                  analysis_date := now
                  score := score
                  price := latest.Close
                  price_change_value := price_change_value
                  change_percent := change_percent
                  ma_trend := maTrendOf (latest.MA5.getD 0) (latest.MA20.getD 0)
                    (latest.MA60.getD 0)
                  rsi := latest.RSI.getD 0
                  macd_signal := macdSignalOf (latest.MACD.getD 0) (latest.Signal.getD 0)
                  volume_status := volumeStatusOf latest.Volume (latest.Volume_MA.getD 0)
                  recommendation := recommendation
                  ai_analysis := "" }
              Event.basic basic :: aiTail stock_code b.aiChunks b.aiExn

/-- The error body FastAPI's `HTTPException` produces: a status code and a
`detail` message. -/
structure HTTPError where
  status_code : Nat
  detail : String
deriving DecidableEq

/-- `f"股票代码 {cleaned} 在数据源中不存在或格式不正确"`: the 400 detail the
non-streaming endpoints raise on `KeyError` (`main.py` lines 231, 333, 396,
481); note it interpolates the cleaned code. -/
def keyErrorDetail (cleaned : String) : String :=
  "股票代码 " ++ cleaned ++ " 在数据源中不存在或格式不正确"

/-- Maps an exception from a collaborator call to the HTTP error the shared
`except` ladder produces: `KeyError` to 400, anything else to 500. -/
def exnHTTP (cleaned : String) : Exn → HTTPError
  | .keyError _ => ⟨400, keyErrorDetail cleaned⟩
  | .other m => ⟨500, m⟩

/-- Success body of `/stock_price` (`main.py` lines 214-225). -/
structure PriceResponse where
  stock_code : String
  market_type : String
  price : ℚ
  Open : ℚ
  High : ℚ
  Low : ℚ
  Volume : ℚ
  price_change_value : ℚ
  change_percent : Option ℚ
  date : String
deriving DecidableEq

/-- `/stock_price` (`main.py` lines 166-234). -/
def get_stock_price (stock_code market_type : String) (fetch : Except Exn FetchResult) :
    Except HTTPError PriceResponse :=
  let cleaned := cleanStockCode stock_code market_type
  match fetch with
  | .error e => .error (exnHTTP cleaned e)
  | .ok (.errorAttr msg) => .error ⟨400, msg⟩
  | .ok (.frame df) =>
    if h : df = [] then .error ⟨404, emptyDataMsg cleaned⟩
    else
      let latest := df.getLast h
      let previous := if 1 < df.length then (df[df.length - 2]?).getD latest else latest
      let price_change_value := latest.Close - previous.Close
      let change_percent := latest.Change_pct
      let change_percent :=
        if change_percent = none ∧ previous.Close ≠ 0 then
          some (price_change_value / previous.Close * 100)
        else change_percent
      .ok { stock_code := stock_code
            market_type := market_type
            price := latest.Close
            Open := latest.Open
            High := latest.High
            Low := latest.Low
            Volume := latest.Volume
            price_change_value := price_change_value
            change_percent := change_percent
            date := latest.name }

/-- Success body of `/stock_technical_analysis` (`main.py` lines 316-327). -/
structure TechResponse where
  stock_code : String
  market_type : String
  ma_trend : String
  rsi : ℚ
  macd : ℚ
  macd_signal : String
  volume_status : String
  bollinger_upper : ℚ
  bollinger_middle : ℚ
  bollinger_lower : ℚ
deriving DecidableEq

/-- `/stock_technical_analysis` (`main.py` lines 242-336). -/
def get_technical_analysis (stock_code market_type : String)
    (fetch : Except Exn FetchResult) (indicators : Except Exn (List Row)) :
    Except HTTPError TechResponse :=
  let cleaned := cleanStockCode stock_code market_type
  match fetch with
  | .error e => .error (exnHTTP cleaned e)
  | .ok (.errorAttr msg) => .error ⟨400, msg⟩
  | .ok (.frame df) =>
    if df.isEmpty then .error ⟨404, emptyDataMsg cleaned⟩
    else
      match indicators with
      | .error e => .error (exnHTTP cleaned e)
      | .ok dfI =>
        match dfI.getLast? with
        | none => .error ⟨500, indexErrorMsg⟩
        | some latest =>
          .ok { stock_code := stock_code
                market_type := market_type
                ma_trend := maTrendOf (latest.MA5.getD 0) (latest.MA20.getD 0)
                  (latest.MA60.getD 0)
                rsi := latest.RSI.getD 0
                macd := latest.MACD.getD 0
                macd_signal := macdSignalOf (latest.MACD.getD 0) (latest.Signal.getD 0)
                volume_status := volumeStatusOf latest.Volume (latest.Volume_MA.getD 0)
                bollinger_upper := latest.BB_Upper.getD 0
                bollinger_middle := latest.BB_Middle.getD 0
                bollinger_lower := latest.BB_Lower.getD 0 }

/-- Success body of `/stock_score` (`main.py` lines 385-390). -/
structure ScoreResponse where
  stock_code : String
  market_type : String
  score : ℚ
  recommendation : String
deriving DecidableEq

/-- `/stock_score` (`main.py` lines 344-399). -/
def get_stock_score (stock_code market_type : String) (fetch : Except Exn FetchResult)
    (indicators : Except Exn (List Row)) (score : Except Exn ℚ)
    (recommendation : Except Exn String) : Except HTTPError ScoreResponse :=
  let cleaned := cleanStockCode stock_code market_type
  match fetch with
  | .error e => .error (exnHTTP cleaned e)
  | .ok (.errorAttr msg) => .error ⟨400, msg⟩
  | .ok (.frame df) =>
    if df.isEmpty then .error ⟨404, emptyDataMsg cleaned⟩
    else
      match indicators with
      | .error e => .error (exnHTTP cleaned e)
      | .ok _ =>
        match score with
        | .error e => .error (exnHTTP cleaned e)
        | .ok s =>
          match recommendation with
          | .error e => .error (exnHTTP cleaned e)
          | .ok r =>
            .ok { stock_code := stock_code, market_type := market_type,
                  score := s, recommendation := r }

/-- One item of the narrative stream as the aggregator sees it after
`json.loads`: either a string that fails to decode, or an object with the
members the loop inspects (`ai_analysis_chunk`, `status`, `score`,
`recommendation`), each possibly absent. -/
inductive Fragment
  | invalid (raw : String)
  | obj (ai_analysis_chunk : Option String) (status : Option String)
        (score : Option ℚ) (recommendation : Option String)
deriving DecidableEq

/-- What the aggregation loop of `/stock_ai_analysis` has accumulated when
it stops: the concatenated text, the captured score/recommendation, and
whether it stopped via the `status == "completed"` break. -/
structure DrainResult where
  text : String
  score : Option ℚ
  recommendation : Option String
  completed : Bool
deriving DecidableEq

/-- The aggregation loop of `/stock_ai_analysis` (`main.py` lines 449-464):
skip undecodable items, append each `ai_analysis_chunk`, and stop at the
first fragment whose `status` is `"completed"`, capturing its `score` and
`recommendation`. -/
def drainLoop : List Fragment → String → DrainResult
  | [], acc => ⟨acc, none, none, false⟩
  | .invalid _ :: rest, acc => drainLoop rest acc
  | .obj ch st sc rc :: rest, acc =>
    let acc2 := acc ++ ch.getD ""
    if st = some "completed" then ⟨acc2, sc, rc, true⟩ else drainLoop rest acc2

/-- `detail="未获取到AI分析结果"` (`main.py` line 475). -/
def noResultMsg : String := "未获取到AI分析结果"

/-- Success body of `/stock_ai_analysis` (`main.py` lines 467-473). -/
structure AIResponse where
  stock_code : String
  market_type : String
  ai_analysis : String
  score : Option ℚ
  recommendation : Option String
deriving DecidableEq

/-- The tail of `/stock_ai_analysis` (`main.py` lines 466-475): Python's
`if full_ai_analysis_text or analysis_score is not None or
analysis_recommendation is not None` — answer the collected values, else
raise 404. -/
def aiSuccessOr404 (stock_code market_type : String) (r : DrainResult) :
    Except HTTPError AIResponse :=
  if r.text ≠ "" ∨ r.score ≠ none ∨ r.recommendation ≠ none then
    Except.ok { stock_code := stock_code, market_type := market_type,
                ai_analysis := r.text, score := r.score,
                recommendation := r.recommendation }
  else Except.error ⟨404, noResultMsg⟩

/-- `/stock_ai_analysis` (`main.py` lines 407-484): run the shared data
checks, drain the narrative stream, and answer 404 when the drain produced
no text, no score and no recommendation (Python's
`if full_ai_analysis_text or analysis_score is not None or ...`).  If the
narrative stream raises before a `"completed"` fragment is reached, the
exception falls through to the endpoint's `except` ladder. -/
def get_ai_analysis (stock_code market_type : String) (fetch : Except Exn FetchResult)
    (indicators : Except Exn (List Row)) (frags : List Fragment) (aiExn : Option Exn) :
    Except HTTPError AIResponse :=
  let cleaned := cleanStockCode stock_code market_type
  match fetch with
  | .error e => .error (exnHTTP cleaned e)
  | .ok (.errorAttr msg) => .error ⟨400, msg⟩
  | .ok (.frame df) =>
    if df.isEmpty then .error ⟨404, emptyDataMsg cleaned⟩
    else
      match indicators with
      | .error e => .error (exnHTTP cleaned e)
      | .ok _ =>
        let r := drainLoop frags ""
        if r.completed = false then
          match aiExn with
          | some e => .error (exnHTTP cleaned e)
          | none => aiSuccessOr404 stock_code market_type r
        else aiSuccessOr404 stock_code market_type r

theorem exnEvent_isErr (sc : String) (e : Exn) : ∃ f, exnEvent sc e = Event.err f := by
  cases e <;> exact ⟨_, rfl⟩

theorem aiTail_shape (sc : String) (cs : List String) (ax : Option Exn) :
    aiTail sc cs ax = cs.map Event.chunk ∨
    ∃ f, aiTail sc cs ax = cs.map Event.chunk ++ [Event.err f] := by
  rcases ax with _ | e
  · exact Or.inl (by simp [aiTail])
  · obtain ⟨f, hf⟩ := exnEvent_isErr sc e
    exact Or.inr ⟨f, by simp [aiTail, hf]⟩

theorem streamGenerator_shape (sc mt now : String) (b : Behavior) :
    (∃ f, streamGenerator sc mt now b = [Event.err f]) ∨
    (∃ r, streamGenerator sc mt now b = Event.basic r :: b.aiChunks.map Event.chunk) ∨
    (∃ r f, streamGenerator sc mt now b =
      Event.basic r :: (b.aiChunks.map Event.chunk ++ [Event.err f])) := by
  unfold streamGenerator
  split
  · obtain ⟨f, hf⟩ := exnEvent_isErr sc _
    exact Or.inl ⟨f, by rw [hf]⟩
  · exact Or.inl ⟨_, rfl⟩
  · split
    · exact Or.inl ⟨_, rfl⟩
    · split
      · obtain ⟨f, hf⟩ := exnEvent_isErr sc _
        exact Or.inl ⟨f, by rw [hf]⟩
      · split
        · obtain ⟨f, hf⟩ := exnEvent_isErr sc _
          exact Or.inl ⟨f, by rw [hf]⟩
        · split
          · obtain ⟨f, hf⟩ := exnEvent_isErr sc _
            exact Or.inl ⟨f, by rw [hf]⟩
          · split
            · obtain ⟨f, hf⟩ := exnEvent_isErr sc _
              exact Or.inl ⟨f, by rw [hf]⟩
            · rcases aiTail_shape sc b.aiChunks b.aiExn with h | ⟨f, h⟩
              · exact Or.inr (Or.inl ⟨_, by rw [h]⟩)
              · exact Or.inr (Or.inr ⟨_, f, by rw [h]⟩)

/-- `true` on the Basic line. -/
def eventKindBasic : Event → Bool
  | .basic _ => true
  | _ => false

/-- `true` on a narrative-chunk line. -/
def eventKindChunk : Event → Bool
  | .chunk _ => true
  | _ => false

/-- `true` on an error line. -/
def eventKindErr : Event → Bool
  | .err _ => true
  | _ => false

/-- The ordering discipline of one streamed response, as the spec states
it: every Basic line precedes every narrative-chunk line, at most one
error line appears, and an error line can only be the final line. -/
def orderedStream (evs : List Event) : Prop :=
  (∀ (i j : Nat) (ei ej : Event), evs[i]? = some ei → evs[j]? = some ej →
      eventKindBasic ei = true → eventKindChunk ej = true → i < j) ∧
  evs.countP eventKindErr ≤ 1 ∧
  (∀ (i : Nat) (ei : Event), evs[i]? = some ei → eventKindErr ei = true →
      i = evs.length - 1)

theorem orderedStream_errOnly (f : List (String × String)) :
    orderedStream [Event.err f] := by
  refine ⟨?_, ?_, ?_⟩
  · intro i j ei ej hi hj hb hc
    cases i with
    | zero =>
      simp only [List.getElem?_cons_zero, Option.some.injEq] at hi
      subst hi
      simp [eventKindBasic] at hb
    | succ i' => simp at hi
  · simp [List.countP_cons, eventKindErr]
  · intro i ei hi he
    cases i with
    | zero => simp
    | succ i' => simp at hi

theorem orderedStream_noErr (r : BasicResult) (cs : List String) :
    orderedStream (Event.basic r :: cs.map Event.chunk) := by
  refine ⟨?_, ?_, ?_⟩
  · intro i j ei ej hi hj hb hc
    cases j with
    | zero =>
      simp only [List.getElem?_cons_zero, Option.some.injEq] at hj
      subst hj
      simp [eventKindChunk] at hc
    | succ j' =>
      cases i with
      | zero => omega
      | succ i' =>
        rw [List.getElem?_cons_succ] at hi
        obtain ⟨c, -, hcc⟩ := List.mem_map.mp (List.getElem?_mem hi)
        subst hcc
        simp [eventKindBasic] at hb
  · simp only [List.countP_cons, eventKindErr, List.countP_map]
    have : List.countP (eventKindErr ∘ Event.chunk) cs = 0 :=
      List.countP_eq_zero.mpr fun a _ => by simp [eventKindErr, Function.comp]
    simp [this, eventKindErr]
  · intro i ei hi he
    cases i with
    | zero =>
      simp only [List.getElem?_cons_zero, Option.some.injEq] at hi
      subst hi
      simp [eventKindErr] at he
    | succ i' =>
      rw [List.getElem?_cons_succ] at hi
      obtain ⟨c, -, hcc⟩ := List.mem_map.mp (List.getElem?_mem hi)
      subst hcc
      simp [eventKindErr] at he

theorem orderedStream_withErr (r : BasicResult) (cs : List String)
    (f : List (String × String)) :
    orderedStream (Event.basic r :: (cs.map Event.chunk ++ [Event.err f])) := by
  refine ⟨?_, ?_, ?_⟩
  · intro i j ei ej hi hj hb hc
    cases j with
    | zero =>
      simp only [List.getElem?_cons_zero, Option.some.injEq] at hj
      subst hj
      simp [eventKindChunk] at hc
    | succ j' =>
      cases i with
      | zero => omega
      | succ i' =>
        rw [List.getElem?_cons_succ] at hi
        rcases List.mem_append.mp (List.getElem?_mem hi) with hmem | hmem
        · obtain ⟨c, -, hcc⟩ := List.mem_map.mp hmem
          subst hcc
          simp [eventKindBasic] at hb
        · rw [List.mem_singleton.mp hmem] at hb
          simp [eventKindBasic] at hb
  · simp only [List.countP_cons, List.countP_append, eventKindErr, List.countP_map]
    have : List.countP (eventKindErr ∘ Event.chunk) cs = 0 :=
      List.countP_eq_zero.mpr fun a _ => by simp [eventKindErr, Function.comp]
    simp [this, eventKindErr, List.countP_cons]
  · intro i ei hi he
    cases i with
    | zero =>
      simp only [List.getElem?_cons_zero, Option.some.injEq] at hi
      subst hi
      simp [eventKindErr] at he
    | succ i' =>
      rw [List.getElem?_cons_succ] at hi
      by_cases hlt : i' < cs.length
      · rw [List.getElem?_append, if_pos (by simpa using hlt)] at hi
        obtain ⟨c, -, hcc⟩ := List.mem_map.mp (List.getElem?_mem hi)
        subst hcc
        simp [eventKindErr] at he
      · push_neg at hlt
        rw [List.getElem?_append_right (by simpa using hlt)] at hi
        have hidx : i' - (cs.map Event.chunk).length = 0 := by
          rcases Nat.lt_or_ge (i' - (cs.map Event.chunk).length) 1 with h1 | h1
          · omega
          · rw [List.getElem?_eq_none (by simpa using h1)] at hi
            exact absurd hi (by simp)
        have hlen : i' = cs.length := by
          simp only [List.length_map] at hidx
          omega
        have hL : (Event.basic r :: (List.map Event.chunk cs ++ [Event.err f])).length
            = cs.length + 2 := by simp
        omega

/-- A Stage-1 failure snapshot: the data provider reports an explicit
error attribute. -/
def bStage1Err : Behavior :=
  { fetch := .ok (.errorAttr "数据获取失败"), indicators := .ok [], score := .ok 0,
    recommendation := .ok "", aiChunks := [], aiExn := none }

/-- A snapshot where the data-provider call raises a generic exception,
reaching the stream generator's catch-all handler. -/
def bCatchAll : Behavior :=
  { fetch := .error (.other "boom"), indicators := .ok [], score := .ok 0,
    recommendation := .ok "", aiChunks := [], aiExn := none }

/-- C1: for every streamed request whose Stage 1 fails — the data provider
returns a value with an `error` attribute or an empty frame — the stream
is exactly one line, an Error line: no Basic line, no chunk line. -/
theorem c1_stage1_failure_single_error (sc mt now : String) (b : Behavior)
    (h : (∃ msg, b.fetch = Except.ok (FetchResult.errorAttr msg)) ∨
         b.fetch = Except.ok (FetchResult.frame [])) :
    ∃ f, streamGenerator sc mt now b = [Event.err f] := by
  rcases h with ⟨msg, hf⟩ | hf <;>
    · unfold streamGenerator
      rw [hf]
      exact ⟨_, rfl⟩

theorem c1_witness :
    ∃ f, streamGenerator "600795" "A" "2025-06-01" bStage1Err = [Event.err f] :=
  c1_stage1_failure_single_error "600795" "A" "2025-06-01" bStage1Err
    (Or.inl ⟨"数据获取失败", rfl⟩)

/-- C2: every streamed response is ordered: the Basic line precedes every
narrative-chunk line, at most one Error line appears, and an Error line is
always the final line. -/
theorem c2_stream_ordering (sc mt now : String) (b : Behavior) :
    orderedStream (streamGenerator sc mt now b) := by
  rcases streamGenerator_shape sc mt now b with ⟨f, h⟩ | ⟨r, h⟩ | ⟨r, f, h⟩ <;> rw [h]
  · exact orderedStream_errOnly f
  · exact orderedStream_noErr r b.aiChunks
  · exact orderedStream_withErr r b.aiChunks f

/-- C3 counterexample: when the data-provider call raises a generic
exception, the catch-all handler's Error line is `{"error": ...}` alone —
it has no `stock_code` and no `status` member. -/
theorem c3_counterexample :
    streamGenerator "600795" "A" "2025-06-01" bCatchAll = [Event.err [("error", "boom")]] ∧
    (∀ v : String, ("stock_code", v) ∉ [(("error" : String), ("boom" : String))]) ∧
    (∀ v : String, ("status", v) ∉ [(("error" : String), ("boom" : String))]) := by
  refine ⟨by decide, ?_, ?_⟩ <;>
    · intro v hv
      simp at hv

theorem exnEvent_err_shape (sc : String) (e : Exn) (f : List (String × String))
    (h : exnEvent sc e = Event.err f) :
    (∃ m c, f = [("error", m), ("stock_code", c), ("status", "error")]) ∨
    (∃ m, f = [("error", m)]) := by
  cases e <;> cases h
  · exact Or.inl ⟨_, _, rfl⟩
  · exact Or.inr ⟨_, rfl⟩

theorem aiTail_err_shape (sc : String) (cs : List String) (ax : Option Exn)
    (f : List (String × String)) (h : Event.err f ∈ aiTail sc cs ax) :
    (∃ m c, f = [("error", m), ("stock_code", c), ("status", "error")]) ∨
    (∃ m, f = [("error", m)]) := by
  unfold aiTail at h
  rcases List.mem_append.mp h with h | h
  · obtain ⟨c, -, hc⟩ := List.mem_map.mp h
    exact absurd hc (by simp)
  · rcases ax with _ | e
    · simp at h
    · exact exnEvent_err_shape sc e f (List.mem_singleton.mp h).symm

theorem streamGenerator_err_shape (sc mt now : String) (b : Behavior)
    (f : List (String × String)) (hmem : Event.err f ∈ streamGenerator sc mt now b) :
    (∃ m c, f = [("error", m), ("stock_code", c), ("status", "error")]) ∨
    (∃ m, f = [("error", m)]) := by
  unfold streamGenerator at hmem
  split at hmem
  · exact exnEvent_err_shape sc _ f (List.mem_singleton.mp hmem).symm
  · obtain heq := List.mem_singleton.mp hmem
    injection heq.symm with h'
    exact Or.inl ⟨_, _, h'.symm⟩
  · split at hmem
    · obtain heq := List.mem_singleton.mp hmem
      injection heq.symm with h'
      exact Or.inl ⟨_, _, h'.symm⟩
    · split at hmem
      · exact exnEvent_err_shape sc _ f (List.mem_singleton.mp hmem).symm
      · split at hmem
        · exact exnEvent_err_shape sc _ f (List.mem_singleton.mp hmem).symm
        · split at hmem
          · exact exnEvent_err_shape sc _ f (List.mem_singleton.mp hmem).symm
          · split at hmem
            · exact exnEvent_err_shape sc _ f (List.mem_singleton.mp hmem).symm
            · rcases List.mem_cons.mp hmem with heq | htail
              · exact absurd heq (by simp)
              · exact aiTail_err_shape sc b.aiChunks b.aiExn f htail

/-- C3 amended: the Stage-1 Error lines (explicit data error and empty
data) and every `KeyError` Error line — whichever stage raised it — carry
all three members `error`, `stock_code` and `status:"error"`; any other
unexpected exception reaches the catch-all handler, whose line carries the
`error` member alone; and every Error line of the stream has one of these
two shapes. -/
theorem c3_amended_error_shape :
    (∀ (sc mt now : String) (b : Behavior) (msg : String),
      b.fetch = Except.ok (FetchResult.errorAttr msg) →
      streamGenerator sc mt now b =
        [Event.err [("error", msg), ("stock_code", cleanStockCode sc mt),
                    ("status", "error")]]) ∧
    (∀ (sc mt now : String) (b : Behavior),
      b.fetch = Except.ok (FetchResult.frame []) →
      streamGenerator sc mt now b =
        [Event.err [("error", emptyDataMsg (cleanStockCode sc mt)),
                    ("stock_code", cleanStockCode sc mt), ("status", "error")]]) ∧
    (∀ sc m : String, exnEvent sc (Exn.keyError m) =
      Event.err [("error", keyErrorStreamMsg sc m), ("stock_code", sc),
                 ("status", "error")]) ∧
    (∀ sc m : String, exnEvent sc (Exn.other m) = Event.err [("error", m)]) ∧
    (∀ (sc mt now : String) (b : Behavior) (e : Exn),
      b.fetch = Except.error e → streamGenerator sc mt now b = [exnEvent sc e]) ∧
    (∀ (sc mt now : String) (b : Behavior) (e : Exn) (df : List Row),
      b.fetch = Except.ok (FetchResult.frame df) → df ≠ [] →
      (b.indicators = Except.error e ∨
       (∃ dfI, b.indicators = Except.ok dfI ∧ b.score = Except.error e) ∨
       (∃ dfI s, b.indicators = Except.ok dfI ∧ b.score = Except.ok s ∧
         b.recommendation = Except.error e)) →
      streamGenerator sc mt now b = [exnEvent sc e]) ∧
    (∀ (sc mt now : String) (b : Behavior) (e : Exn) (df dfI : List Row)
      (latest : Row) (s : ℚ) (rcm : String),
      b.fetch = Except.ok (FetchResult.frame df) → df ≠ [] →
      b.indicators = Except.ok dfI → dfI.getLast? = some latest →
      b.score = Except.ok s → b.recommendation = Except.ok rcm →
      b.aiExn = some e →
      ∃ r : BasicResult, streamGenerator sc mt now b =
        Event.basic r :: (b.aiChunks.map Event.chunk ++ [exnEvent sc e])) ∧
    (∀ (sc mt now : String) (b : Behavior) (f : List (String × String)),
      Event.err f ∈ streamGenerator sc mt now b →
      (∃ m c, f = [("error", m), ("stock_code", c), ("status", "error")]) ∨
      (∃ m, f = [("error", m)])) := by
  refine ⟨?_, ?_, fun sc m => rfl, fun sc m => rfl, ?_, ?_, ?_,
    streamGenerator_err_shape⟩
  · intro sc mt now b msg hf
    unfold streamGenerator
    rw [hf]
  · intro sc mt now b hf
    unfold streamGenerator
    rw [hf]
    rfl
  · intro sc mt now b e hf
    unfold streamGenerator
    rw [hf]
  · intro sc mt now b e df hf hdf hsrc
    obtain ⟨bf, bi, bs, br, bc, bx⟩ := b
    dsimp only at hf hsrc
    subst hf
    rcases df with _ | ⟨r0, df'⟩
    · exact absurd rfl hdf
    rcases hsrc with hi | ⟨dfI, hi, hs⟩ | ⟨dfI, s, hi, hs, hr⟩
    · subst hi
      rfl
    · subst hi
      subst hs
      rfl
    · subst hi
      subst hs
      subst hr
      rfl
  · intro sc mt now b e df dfI latest s rcm hf hdf hi hl hs hr hx
    obtain ⟨bf, bi, bs, br, bc, bx⟩ := b
    dsimp only at hf hi hs hr hx
    subst hf
    subst hi
    subst hs
    subst hr
    subst hx
    rcases df with _ | ⟨r0, df'⟩
    · exact absurd rfl hdf
    exact ⟨_, by unfold streamGenerator; dsimp only; rw [hl]; rfl⟩

/-- C4: the ticker normalizer strips exactly the first two characters when
the market is `"A"` and the lowercased code starts with `"sh"` or `"sz"`,
and returns the code unchanged otherwise; `"sh600795"`/`"A"` gives
`"600795"`, `"600795"` is unchanged for every market type, and
`"HK00700"`/`"HK"` is unchanged. -/
theorem c4_normalizer :
    (∀ code mt : String,
      ((mt = "A" ∧ (pyStartswith (lowercase code) "sh" = true ∨
          pyStartswith (lowercase code) "sz" = true)) →
        cleanStockCode code mt = sliceFrom2 code) ∧
      (¬(mt = "A" ∧ (pyStartswith (lowercase code) "sh" = true ∨
          pyStartswith (lowercase code) "sz" = true)) →
        cleanStockCode code mt = code)) ∧
    cleanStockCode "sh600795" "A" = "600795" ∧
    (∀ mt : String, cleanStockCode "600795" mt = "600795") ∧
    cleanStockCode "HK00700" "HK" = "HK00700" := by
  refine ⟨fun code mt => ⟨fun h => ?_, fun h => ?_⟩, by decide, ?_, by decide⟩
  · unfold cleanStockCode
    rw [if_pos h]
  · unfold cleanStockCode
    rw [if_neg h]
  · intro mt
    unfold cleanStockCode
    rw [if_neg]
    rintro ⟨-, h | h⟩ <;> exact absurd h (by decide)

theorem maTrendOf_up_iff (s m l : ℚ) : maTrendOf s m l = "UP" ↔ s > m ∧ m > l := by
  unfold maTrendOf
  split_ifs with h1 h2
  · exact iff_of_true rfl h1
  · exact iff_of_false (by decide) (fun hc => absurd hc.1 (lt_asymm h2.1))
  · exact iff_of_false (by decide) h1

theorem maTrendOf_down_iff (s m l : ℚ) : maTrendOf s m l = "DOWN" ↔ s < m ∧ m < l := by
  unfold maTrendOf
  split_ifs with h1 h2
  · exact iff_of_false (by decide) (fun hc => absurd h1.1 (lt_asymm hc.1))
  · exact iff_of_true rfl h2
  · exact iff_of_false (by decide) h2

theorem maTrendOf_flat_iff (s m l : ℚ) :
    maTrendOf s m l = "FLAT" ↔ ¬(s > m ∧ m > l) ∧ ¬(s < m ∧ m < l) := by
  unfold maTrendOf
  split_ifs with h1 h2
  · exact iff_of_false (by decide) (fun hc => hc.1 h1)
  · exact iff_of_false (by decide) (fun hc => hc.2 h2)
  · exact iff_of_true rfl ⟨h1, h2⟩

/-- C5: the trend classifier, applied to the latest indicator row with
absent moving averages read as zero, answers `"UP"` exactly for
`short > medium > long`, `"DOWN"` exactly for `short < medium < long`, and
`"FLAT"` in every other case — in particular when all three are equal, and
for every mixed ordering such as short > medium with medium < long. -/
theorem c5_trend_classifier :
    (∀ r : Row,
      (maTrendOf (r.MA5.getD 0) (r.MA20.getD 0) (r.MA60.getD 0) = "UP" ↔
        r.MA5.getD 0 > r.MA20.getD 0 ∧ r.MA20.getD 0 > r.MA60.getD 0) ∧
      (maTrendOf (r.MA5.getD 0) (r.MA20.getD 0) (r.MA60.getD 0) = "DOWN" ↔
        r.MA5.getD 0 < r.MA20.getD 0 ∧ r.MA20.getD 0 < r.MA60.getD 0) ∧
      (maTrendOf (r.MA5.getD 0) (r.MA20.getD 0) (r.MA60.getD 0) = "FLAT" ↔
        ¬(r.MA5.getD 0 > r.MA20.getD 0 ∧ r.MA20.getD 0 > r.MA60.getD 0) ∧
        ¬(r.MA5.getD 0 < r.MA20.getD 0 ∧ r.MA20.getD 0 < r.MA60.getD 0))) ∧
    (∀ x : ℚ, maTrendOf x x x = "FLAT") ∧
    (∀ s m l : ℚ, s > m → m < l → maTrendOf s m l = "FLAT") := by
  refine ⟨fun r => ⟨maTrendOf_up_iff _ _ _, maTrendOf_down_iff _ _ _,
    maTrendOf_flat_iff _ _ _⟩, fun x => ?_, fun s m l h h' => ?_⟩
  · exact (maTrendOf_flat_iff x x x).mpr (by simp)
  · exact (maTrendOf_flat_iff s m l).mpr
      ⟨fun hc => absurd hc.2 (not_lt.mpr (le_of_lt h')),
       fun hc => absurd hc.1 (not_lt.mpr (le_of_lt h))⟩

/-- C6 counterexample: with a negative volume moving average the boundary
case is not `"NORMAL"`: at volume `-3` and average `-2`, the volume equals
`1.5 ×` the average yet the classifier answers `"LOW"` (and the claim's
"LOW exactly when volume < 0.5 × average" predicts `"LOW"` for `-2`, where
the classifier answers `"HIGH"`). -/
theorem c6_counterexample :
    ((-3 : ℚ) = (-2 : ℚ) * 1.5 ∧ volumeStatusOf (-3) (-2) = "LOW") ∧
    ((-2 : ℚ) < (-2 : ℚ) * 0.5 ∧ volumeStatusOf (-2) (-2) = "HIGH") := by
  refine ⟨⟨by norm_num, ?_⟩, ⟨by norm_num, ?_⟩⟩ <;>
    · unfold volumeStatusOf
      norm_num

/-- C6 amended: when the volume moving average is nonnegative — as every
actual average of volumes is — the classifier answers `"HIGH"` exactly
above `1.5 ×` average, `"LOW"` exactly below `0.5 ×` average, `"NORMAL"`
otherwise, and both exact boundaries fall to `"NORMAL"`. -/
theorem c6_amended_volume_regime (volume volume_ma : ℚ) (h : 0 ≤ volume_ma) :
    (volumeStatusOf volume volume_ma = "HIGH" ↔ volume > volume_ma * 1.5) ∧
    (volumeStatusOf volume volume_ma = "LOW" ↔ volume < volume_ma * 0.5) ∧
    (volumeStatusOf volume volume_ma = "NORMAL" ↔
      ¬(volume > volume_ma * 1.5) ∧ ¬(volume < volume_ma * 0.5)) ∧
    (volume = volume_ma * 1.5 → volumeStatusOf volume volume_ma = "NORMAL") ∧
    (volume = volume_ma * 0.5 → volumeStatusOf volume volume_ma = "NORMAL") := by
  have hcmp : volume_ma * 0.5 ≤ volume_ma * 1.5 := by nlinarith
  unfold volumeStatusOf
  split_ifs with h1 h2
  · refine ⟨iff_of_true rfl h1, iff_of_false (by decide) (fun hc => by linarith),
      iff_of_false (by decide) (fun hc => hc.1 h1), fun he => ?_, fun he => ?_⟩
    · exact absurd h1 (by rw [he]; exact lt_irrefl _)
    · exact absurd h1 (by rw [he]; intro hc; linarith)
  · refine ⟨iff_of_false (by decide) (fun hc => h1 hc), iff_of_true rfl h2,
      iff_of_false (by decide) (fun hc => hc.2 h2), fun he => ?_, fun he => ?_⟩
    · exact absurd h2 (by rw [he]; intro hc; linarith)
    · exact absurd h2 (by rw [he]; exact lt_irrefl _)
  · exact ⟨iff_of_false (by decide) h1, iff_of_false (by decide) h2,
      iff_of_true rfl ⟨h1, h2⟩, fun he => rfl, fun he => rfl⟩

theorem c6_amended_witness : volumeStatusOf 3 2 = "NORMAL" :=
  (c6_amended_volume_regime 3 2 (by norm_num)).2.2.2.1 (by norm_num)

theorem basic_not_mem_aiTail (r : BasicResult) (sc : String) (cs : List String)
    (ax : Option Exn) : Event.basic r ∉ aiTail sc cs ax := by
  unfold aiTail
  intro h
  rcases List.mem_append.mp h with h | h
  · obtain ⟨c, -, hc⟩ := List.mem_map.mp h
    exact absurd hc (by simp)
  · rcases ax with _ | e
    · simp at h
    · cases e <;> simp [exnEvent] at h

theorem aiSuccessOr404_eq_404_iff (sc mt : String) (r : DrainResult) :
    aiSuccessOr404 sc mt r = Except.error ⟨404, noResultMsg⟩ ↔
      r.text = "" ∧ r.score = none ∧ r.recommendation = none := by
  unfold aiSuccessOr404
  split_ifs with hcond
  · constructor
    · intro he
      exact absurd he (by simp)
    · rintro ⟨ht, hs, hr⟩
      rcases hcond with hc | hc | hc
      · exact absurd ht hc
      · exact absurd hs hc
      · exact absurd hr hc
  · push_neg at hcond
    exact ⟨fun _ => hcond, fun _ => rfl⟩

theorem aiSuccessOr404_ok (sc mt : String) (r : DrainResult)
    (h : r.text ≠ "" ∨ r.score ≠ none ∨ r.recommendation ≠ none) :
    aiSuccessOr404 sc mt r =
      Except.ok { stock_code := sc, market_type := mt, ai_analysis := r.text,
                  score := r.score, recommendation := r.recommendation } := by
  unfold aiSuccessOr404
  rw [if_pos h]

theorem get_ai_analysis_ok_noexn (sc mt : String) (df dfI : List Row)
    (frags : List Fragment) (hdf : df.isEmpty = false) :
    get_ai_analysis sc mt (Except.ok (FetchResult.frame df)) (Except.ok dfI) frags none =
      aiSuccessOr404 sc mt (drainLoop frags "") := by
  simp only [get_ai_analysis, hdf, Bool.false_eq_true, if_false]
  cases hc : (drainLoop frags "").completed <;> simp [hc]

/-- C7: once the data and indicator stages succeed and the narrative
stream ends without raising, `/stock_ai_analysis` answers 404 exactly when
draining collected no text, no score and no recommendation; otherwise it
answers one object carrying the drained text, score and recommendation. -/
theorem c7_ai_aggregator (sc mt : String) (df dfI : List Row) (frags : List Fragment)
    (hdf : df ≠ []) :
    (get_ai_analysis sc mt (Except.ok (FetchResult.frame df)) (Except.ok dfI) frags none =
        Except.error ⟨404, noResultMsg⟩ ↔
      (drainLoop frags "").text = "" ∧ (drainLoop frags "").score = none ∧
        (drainLoop frags "").recommendation = none) ∧
    ((drainLoop frags "").text ≠ "" ∨ (drainLoop frags "").score ≠ none ∨
        (drainLoop frags "").recommendation ≠ none →
      get_ai_analysis sc mt (Except.ok (FetchResult.frame df)) (Except.ok dfI) frags none =
        Except.ok { stock_code := sc, market_type := mt,
                    ai_analysis := (drainLoop frags "").text,
                    score := (drainLoop frags "").score,
                    recommendation := (drainLoop frags "").recommendation }) := by
  have hne : df.isEmpty = false := by
    cases df
    · exact absurd rfl hdf
    · rfl
  rw [get_ai_analysis_ok_noexn sc mt df dfI frags hne]
  exact ⟨aiSuccessOr404_eq_404_iff sc mt (drainLoop frags ""),
    fun h => aiSuccessOr404_ok sc mt (drainLoop frags "") h⟩

/-- A one-bar data frame used to instantiate the theorems. -/
def baseRow : Row :=
  { name := "2025-06-30", Open := 10, High := 11, Low := 9, Close := 10, Volume := 100 }

/-- A narrative stream of one plain chunk and a completion fragment. -/
def wFrags : List Fragment :=
  [Fragment.obj (some "看涨。") none none none,
   Fragment.obj none (some "completed") (some 80) (some "买入")]

theorem c7_witness :
    (get_ai_analysis "600795" "A" (Except.ok (FetchResult.frame [baseRow]))
        (Except.ok [baseRow]) wFrags none = Except.error ⟨404, noResultMsg⟩ ↔
      (drainLoop wFrags "").text = "" ∧ (drainLoop wFrags "").score = none ∧
        (drainLoop wFrags "").recommendation = none) ∧
    ((drainLoop wFrags "").text ≠ "" ∨ (drainLoop wFrags "").score ≠ none ∨
        (drainLoop wFrags "").recommendation ≠ none →
      get_ai_analysis "600795" "A" (Except.ok (FetchResult.frame [baseRow]))
        (Except.ok [baseRow]) wFrags none =
        Except.ok { stock_code := "600795", market_type := "A",
                    ai_analysis := (drainLoop wFrags "").text,
                    score := (drainLoop wFrags "").score,
                    recommendation := (drainLoop wFrags "").recommendation }) :=
  c7_ai_aggregator "600795" "A" [baseRow] [baseRow] wFrags (by simp)

theorem streamGenerator_basic_stock_code (sc mt now : String) (b : Behavior)
    (r : BasicResult) (hmem : Event.basic r ∈ streamGenerator sc mt now b) :
    r.stock_code = sc := by
  unfold streamGenerator at hmem
  split at hmem
  · rename_i e _
    cases e <;> simp [exnEvent] at hmem
  · simp at hmem
  · split at hmem
    · simp at hmem
    · split at hmem
      · rename_i e _
        cases e <;> simp [exnEvent] at hmem
      · split at hmem
        · rename_i e _
          cases e <;> simp [exnEvent] at hmem
        · split at hmem
          · rename_i e _
            cases e <;> simp [exnEvent] at hmem
          · split at hmem
            · simp [exnEvent] at hmem
            · rcases List.mem_cons.mp hmem with heq | htail
              · injection heq with h'
                rw [h']
              · exact absurd htail (basic_not_mem_aiTail r sc _ _)

theorem get_stock_price_stock_code (sc mt : String) (fetch : Except Exn FetchResult)
    (resp : PriceResponse) (h : get_stock_price sc mt fetch = Except.ok resp) :
    resp.stock_code = sc := by
  unfold get_stock_price at h
  dsimp only at h
  repeat' split at h
  all_goals first
    | (injection h with h'
       rw [← h'])
    | injection h

theorem get_technical_analysis_stock_code (sc mt : String)
    (fetch : Except Exn FetchResult) (ind : Except Exn (List Row)) (resp : TechResponse)
    (h : get_technical_analysis sc mt fetch ind = Except.ok resp) :
    resp.stock_code = sc := by
  unfold get_technical_analysis at h
  dsimp only at h
  repeat' split at h
  all_goals first
    | (injection h with h'
       rw [← h'])
    | injection h

theorem get_stock_score_stock_code (sc mt : String) (fetch : Except Exn FetchResult)
    (ind : Except Exn (List Row)) (score : Except Exn ℚ)
    (recommendation : Except Exn String) (resp : ScoreResponse)
    (h : get_stock_score sc mt fetch ind score recommendation = Except.ok resp) :
    resp.stock_code = sc := by
  unfold get_stock_score at h
  dsimp only at h
  repeat' split at h
  all_goals first
    | (injection h with h'
       rw [← h'])
    | injection h

theorem aiSuccessOr404_stock_code (sc mt : String) (r : DrainResult) (resp : AIResponse)
    (h : aiSuccessOr404 sc mt r = Except.ok resp) : resp.stock_code = sc := by
  unfold aiSuccessOr404 at h
  split_ifs at h
  injection h with h'
  rw [← h']

theorem get_ai_analysis_stock_code (sc mt : String) (fetch : Except Exn FetchResult)
    (ind : Except Exn (List Row)) (frags : List Fragment) (ax : Option Exn)
    (resp : AIResponse) (h : get_ai_analysis sc mt fetch ind frags ax = Except.ok resp) :
    resp.stock_code = sc := by
  unfold get_ai_analysis at h
  dsimp only at h
  repeat' split at h
  all_goals first
    | injection h
    | exact aiSuccessOr404_stock_code sc mt _ resp h

/-- C8 counterexample: a Stage-1 data error for `"sh600795"` on market
`"A"` produces an Error line whose `stock_code` member is the normalized
`"600795"`, not the caller's original code. -/
theorem c8_counterexample :
    streamGenerator "sh600795" "A" "2025-06-01" bStage1Err =
      [Event.err [("error", "数据获取失败"), ("stock_code", "600795"), ("status", "error")]] ∧
    ("600795" : String) ≠ "sh600795" := ⟨by decide, by decide⟩

/-- C8 amended: the Basic line and every non-streaming success body echo
the caller's original code, but the streamed Stage-1 Error lines (data
error and empty data) carry the normalized code instead (the `KeyError`
line carries the original and the catch-all line carries no code at all,
per the C3 analysis). -/
theorem c8_amended_echo :
    (∀ (sc mt now : String) (b : Behavior) (r : BasicResult),
      Event.basic r ∈ streamGenerator sc mt now b → r.stock_code = sc) ∧
    (∀ (sc mt : String) (fetch : Except Exn FetchResult) (resp : PriceResponse),
      get_stock_price sc mt fetch = Except.ok resp → resp.stock_code = sc) ∧
    (∀ (sc mt : String) (fetch : Except Exn FetchResult) (ind : Except Exn (List Row))
      (resp : TechResponse),
      get_technical_analysis sc mt fetch ind = Except.ok resp → resp.stock_code = sc) ∧
    (∀ (sc mt : String) (fetch : Except Exn FetchResult) (ind : Except Exn (List Row))
      (score : Except Exn ℚ) (recommendation : Except Exn String) (resp : ScoreResponse),
      get_stock_score sc mt fetch ind score recommendation = Except.ok resp →
        resp.stock_code = sc) ∧
    (∀ (sc mt : String) (fetch : Except Exn FetchResult) (ind : Except Exn (List Row))
      (frags : List Fragment) (ax : Option Exn) (resp : AIResponse),
      get_ai_analysis sc mt fetch ind frags ax = Except.ok resp → resp.stock_code = sc) ∧
    (∀ (sc mt now : String) (b : Behavior) (msg : String),
      b.fetch = Except.ok (FetchResult.errorAttr msg) →
      streamGenerator sc mt now b =
        [Event.err [("error", msg), ("stock_code", cleanStockCode sc mt),
                    ("status", "error")]]) ∧
    (∀ (sc mt now : String) (b : Behavior),
      b.fetch = Except.ok (FetchResult.frame []) →
      streamGenerator sc mt now b =
        [Event.err [("error", emptyDataMsg (cleanStockCode sc mt)),
                    ("stock_code", cleanStockCode sc mt), ("status", "error")]]) := by
  refine ⟨streamGenerator_basic_stock_code, get_stock_price_stock_code,
    get_technical_analysis_stock_code, get_stock_score_stock_code,
    get_ai_analysis_stock_code, ?_, ?_⟩
  · intro sc mt now b msg hf
    unfold streamGenerator
    rw [hf]
  · intro sc mt now b hf
    unfold streamGenerator
    rw [hf]
    rfl

/-- A fully successful collaborator snapshot over the one-bar frame. -/
def bOK : Behavior :=
  { fetch := .ok (.frame [baseRow]), indicators := .ok [baseRow], score := .ok 80,
    recommendation := .ok "买入", aiChunks := [], aiExn := none }

/-- The Basic line `bOK` produces when the clock reads date `d`. -/
def basicRun (d : String) : BasicResult :=
  { stock_code := "600795", market_type := "A", analysis_date := d,
    score := 80, price := 10, price_change_value := 0, change_percent := some 0,
    ma_trend := "FLAT", rsi := 0, macd_signal := "HOLD", volume_status := "HIGH",
    recommendation := "买入", ai_analysis := "" }

/-- C9 counterexample: the same request against the same collaborator
snapshot, run on two different dates, emits Basic lines that differ (in
`analysis_date`, which reads the wall clock, not an input). -/
theorem c9_counterexample :
    streamGenerator "600795" "A" "2025-01-01" bOK = [Event.basic (basicRun "2025-01-01")] ∧
    streamGenerator "600795" "A" "2025-01-02" bOK = [Event.basic (basicRun "2025-01-02")] ∧
    basicRun "2025-01-01" ≠ basicRun "2025-01-02" := by
  refine ⟨?_, ?_, ?_⟩
  · norm_num [streamGenerator, bOK, baseRow, cleanStockCode, pyStartswith, lowercase,
      maTrendOf, macdSignalOf, volumeStatusOf, basicRun, aiTail]
  · norm_num [streamGenerator, bOK, baseRow, cleanStockCode, pyStartswith, lowercase,
      maTrendOf, macdSignalOf, volumeStatusOf, basicRun, aiTail]
  · simp [basicRun]

/-- Erase the clock-dependent member of a Basic line. -/
def eraseDate (r : BasicResult) : BasicResult := { r with analysis_date := "" }

/-- Erase the clock-dependent member of a streamed line. -/
def eraseDateEv : Event → Event
  | .basic r => .basic (eraseDate r)
  | e => e

/-- C9 amended: apart from `analysis_date`, which reads the wall clock,
two runs with identical inputs against an identical collaborator snapshot
produce identical streams — in particular identical Basic-line fields. -/
theorem c9_amended_deterministic (sc mt now1 now2 : String) (b : Behavior) :
    (streamGenerator sc mt now1 b).map eraseDateEv =
      (streamGenerator sc mt now2 b).map eraseDateEv := by
  unfold streamGenerator
  split
  · rfl
  · rfl
  · split
    · rfl
    · split
      · rfl
      · split
        · rfl
        · split
          · rfl
          · split
            · rfl
            · simp [eraseDateEv, eraseDate]

/-- C10: on a one-bar frame the previous bar is the latest bar itself, so
the price change is `0`, and the change percent is the bar's precomputed
`Change_pct` when present, `0` when absent with a nonzero close, and
absent (`null`) when absent with a zero close — in the streamed Basic line
and in `/stock_price` alike. -/
theorem c10_single_bar (sc mt now : String) (b : Behavior) (row : Row) (df : List Row)
    (hfetch : b.fetch = Except.ok (FetchResult.frame df)) (hdf : df ≠ [])
    (hind : b.indicators = Except.ok [row]) :
    (∀ r : BasicResult, Event.basic r ∈ streamGenerator sc mt now b →
      r.price_change_value = 0 ∧
      r.change_percent = (match row.Change_pct with
        | some c => some c
        | none => if row.Close ≠ 0 then some 0 else none)) ∧
    (∀ resp : PriceResponse,
      get_stock_price sc mt (Except.ok (FetchResult.frame [row])) = Except.ok resp →
      resp.price_change_value = 0 ∧
      resp.change_percent = (match row.Change_pct with
        | some c => some c
        | none => if row.Close ≠ 0 then some 0 else none)) := by
  constructor
  · intro r hmem
    obtain ⟨bf, bi, bs, br, bc, bx⟩ := b
    dsimp only at hfetch hind
    subst hfetch hind
    unfold streamGenerator at hmem
    rcases df with _ | ⟨r0, df'⟩
    · exact absurd rfl hdf
    dsimp only at hmem
    rcases bs with e | s
    · cases e <;> simp [exnEvent] at hmem
    rcases br with e | rcm
    · cases e <;> simp [exnEvent] at hmem
    simp only [List.getLast?_singleton, List.length_singleton] at hmem
    rcases List.mem_cons.mp hmem with heq | htail
    · injection heq with h'
      subst h'
      refine ⟨by simp, ?_⟩
      rcases hcp : row.Change_pct with _ | c
      · by_cases hz : row.Close = 0 <;> simp [hcp, hz]
      · simp [hcp]
    · exact absurd htail (basic_not_mem_aiTail r sc _ _)
  · intro resp hresp
    unfold get_stock_price at hresp
    dsimp only at hresp
    rw [dif_neg (by simp : ¬(([row] : List Row) = []))] at hresp
    injection hresp with h'
    subst h'
    refine ⟨by simp, ?_⟩
    rcases hcp : row.Change_pct with _ | c
    · by_cases hz : row.Close = 0 <;> simp [hcp, hz]
    · simp [hcp]

theorem c10_witness :
    (∀ r : BasicResult, Event.basic r ∈ streamGenerator "600795" "A" "2025-06-30" bOK →
      r.price_change_value = 0 ∧
      r.change_percent = (match baseRow.Change_pct with
        | some c => some c
        | none => if baseRow.Close ≠ 0 then some 0 else none)) ∧
    (∀ resp : PriceResponse,
      get_stock_price "600795" "A" (Except.ok (FetchResult.frame [baseRow])) =
          Except.ok resp →
      resp.price_change_value = 0 ∧
      resp.change_percent = (match baseRow.Change_pct with
        | some c => some c
        | none => if baseRow.Close ≠ 0 then some 0 else none)) :=
  c10_single_bar "600795" "A" "2025-06-30" bOK baseRow [baseRow] rfl (by simp) rfl
